import Mathlib

/-!
Shallow embedding of the message-pipeline core of the Lucky-client repository:
the chat-store reconciliation logic (src/store/modules/chat.ts), the group
operation state machine (src/store/modules/group.ts), the inbound priority
mapping (src/core.ts) and the safe-execute error boundary
(src/utils/ErrorHandler.ts), together with proofs about the behaviour the
specification ascribes to them.

JavaScript runtime values that message bodies range over are modelled by the
mutual inductive JsVal below (JSON values plus the JS-specific undefined).
JSON.parse is modelled as an oracle parameter of type String -> Option JsVal
wherever a function of the source merely probes parseability; JSON.stringify
is modelled executably by stringifyJson.
-/

namespace Lucky

-- A JavaScript runtime value: JSON constructors plus undefined.  Arrays and
-- objects are mutual inductives so that structural recursion and derived
-- decidable equality stay simple.
mutual

inductive JsVal where
  | null : JsVal
  | undef : JsVal
  | bool : Bool → JsVal
  | num : Int → JsVal
  | str : String → JsVal
  | arr : JsArr → JsVal
  | obj : JsObj → JsVal

inductive JsArr where
  | nil : JsArr
  | cons : JsVal → JsArr → JsArr

inductive JsObj where
  | nil : JsObj
  | cons : String → JsVal → JsObj → JsObj

end

deriving instance DecidableEq for JsVal
deriving instance DecidableEq for JsArr
deriving instance DecidableEq for JsObj

/-- Escape the characters of a string for JSON output (backslash and double
quote), recursing over the character list. -/
def escChars : List Char → List Char
  | [] => []
  | c :: cs =>
    if c = '\\' then '\\' :: '\\' :: escChars cs
    else if c = '"' then '\\' :: '"' :: escChars cs
    else c :: escChars cs

/-- Escape a string for JSON output (backslash and double quote). -/
def escapeJson (s : String) : String :=
  String.mk (escChars s.data)

mutual

/-- Model of JSON.stringify on a JS value.  Undefined object fields are
dropped and undefined array elements serialize as null, as in JS.  A bare
undefined only arises in positions the source never stringifies. -/
def stringifyJson : JsVal → String
  | .null => "null"
  | .undef => "undefined"
  | .bool true => "true"
  | .bool false => "false"
  | .num n => toString n
  | .str s => "\"" ++ escapeJson s ++ "\""
  | .arr a => "[" ++ stringifyArr a ++ "]"
  | .obj o => "\x7b" ++ stringifyObj o ++ "\x7d"

/-- Comma-separated serialization of array elements. -/
def stringifyArr : JsArr → String
  | .nil => ""
  | .cons v .nil => stringifyElem v
  | .cons v rest => stringifyElem v ++ "," ++ stringifyArr rest

/-- One array element: JSON.stringify maps undefined elements to null. -/
def stringifyElem : JsVal → String
  | .undef => "null"
  | v => stringifyJson v

/-- Comma-separated serialization of object fields, dropping undefined. -/
def stringifyObj : JsObj → String
  | .nil => ""
  | .cons _ .undef rest => stringifyObj rest
  | .cons k v rest =>
    let f := "\"" ++ escapeJson k ++ "\":" ++ stringifyJson v
    match stringifyObj rest with
    | "" => f
    | r => f ++ "," ++ r

end

/-- Model of the JS String() coercion on primitive values.  parseBody only
applies it to non-object values (objects and arrays are handled earlier), so
the arr and obj branches are unreachable there. -/
def jsToString : JsVal → String
  | .null => "null"
  | .undef => "undefined"
  | .bool true => "true"
  | .bool false => "false"
  | .num n => toString n
  | .str s => s
  | .arr _ => ""
  | .obj _ => ""

/-- An object with a single field. -/
def obj1 (k : String) (v : JsVal) : JsVal :=
  .obj (.cons k v .nil)

/-- Body decode from chat.ts parseBody (lines 137-145).  The oracle
`parses` models JSON.parse: some v when the string parses, none when
JSON.parse would throw.  It always returns a plain record (modelled as a
JsVal object); no branch fails.

Source:
  if (raw == null) return ({});
  if (typeof raw === "object") return Array.isArray(raw) ? (, parts: raw ,) : raw;
  if (typeof raw !== "string") return (, text: String(raw) ,);
  try (
    const parsed = JSON.parse(raw.trim());
    return typeof parsed === "object" && parsed
      ? (Array.isArray(parsed) ? (, parts: parsed ,) : parsed)
      : (, text: String(parsed) ,);
  ) catch ( return (, text: raw ,); )
-/
def parseBody (parses : String → Option JsVal) (raw : JsVal) : JsVal :=
  match raw with
  | .null => .obj .nil
  | .undef => .obj .nil
  | .obj o => .obj o
  | .arr a => obj1 "parts" (.arr a)
  | .str s =>
    match parses s.trim with
    | some (.obj o) => .obj o
    | some (.arr a) => obj1 "parts" (.arr a)
    | some parsed => obj1 "text" (.str (jsToString parsed))
    | none => obj1 "text" (.str s)
  | v => obj1 "text" (.str (jsToString v))

/-- Body encode from chat.ts stringifyBody (lines 150-156).  The oracle
`parses` models the JSON.parse probe used to detect already-encoded strings.

Source:
  if (raw == null) return "()"-object;
  if (typeof raw === "string") (
    try ( JSON.parse(raw); return raw; ) catch ( return JSON.stringify((, text: raw ,)); )
  )
  return JSON.stringify(raw);
-/
def stringifyBody (parses : String → Option JsVal) (raw : JsVal) : String :=
  match raw with
  | .null => "\x7b\x7d"
  | .undef => "\x7b\x7d"
  | .str s =>
    match parses s with
    | some _ => s
    | none => stringifyJson (obj1 "text" (.str s))
  | v => stringifyJson v

/-! Chat (session) rows as held in the in-memory chat list.  Only the fields
the reconciliation core reads and writes are modelled; numeric fields use the
values the database entity carries (the JS `x or 0` guards are identities on
those).  `unread` uses Nat because the code only ever writes 0 or increments. -/

structure Chats where
  chatId : String
  toId : String
  isTop : Int
  isMute : Int
  messageTime : Nat
  sequence : Nat
  unread : Nat
  message : String
  deriving DecidableEq

/-- Normalized inbound message, restricted to the fields the reconciler
(updateWithMsg) and the claims consult. -/
structure IMessage where
  fromId : String
  messageTime : Nat
  sequence : Nat
  messageContentType : Int
  deriving DecidableEq

/-- Result of buildMessagePreview: html, plainText and originalText variants
(absent fields model as ""). -/
structure PreviewR where
  html : String
  plainText : String
  originalText : String
  deriving DecidableEq

/-- JS `a or b` on strings: first operand when non-empty (truthy). -/
def orElseStr (a b : String) : String := if a = "" then b else a

/-- JS `a or b` on numbers where a is a Nat: 0 is falsy. -/
def orNowNat (a now : Nat) : Nat := if a = 0 then now else a

/-- The chat-list comparator of chat.ts sortList (lines 104-106):
(b.isTop or 0) - (a.isTop or 0), falling back to
(b.messageTime or 0) - (a.messageTime or 0) when the first difference is 0
(the JS `or` chain on the two differences). -/
def cmpChats (a b : Chats) : Int :=
  if b.isTop - a.isTop = 0 then (b.messageTime : Int) - (a.messageTime : Int)
  else b.isTop - a.isTop

/-- Stable insertion used to model Array.prototype.sort with cmpChats: the
ECMAScript sort is stable and cmpChats is a consistent comparator, so any
stable sorting algorithm consistent with it models the call.  x is placed
before the first element y with cmpChats x y <= 0. -/
def insChat (x : Chats) : List Chats → List Chats
  | [] => [x]
  | y :: ys => if cmpChats x y ≤ 0 then x :: y :: ys else y :: insChat x ys

/-- Model of chat.ts sortList: stable sort of the chat list by cmpChats. -/
def sortList (l : List Chats) : List Chats :=
  match l with
  | [] => []
  | x :: xs => insChat x (sortList xs)

/-- The sort key the comparator depends on. -/
def chatKey (c : Chats) : Int × Nat := (c.isTop, c.messageTime)

/-- Aggregate unread badge, chat.ts getters.totalUnread (line 90):
reduce((s, c) => c.isMute === 0 ? s + (c.unread or 0) : s, 0). -/
def totalUnread (l : List Chats) : Nat :=
  l.foldl (fun s c => if c.isMute = 0 then s + c.unread else s) 0

/-- chat.ts updateRead (lines 302-307): find the chat by id via findChatIndex
(which returns -1 for a falsy chatId) and set its unread; the persistence task
only mirrors the same field.  Returns the updated list. -/
instance : Inhabited Chats :=
  ⟨⟨"", "", 0, 0, 0, 0, 0, ""⟩⟩

/-- First-match update used by updateRead: findIndex plus direct index
assignment updates exactly the first chat whose chatId matches (no match
leaves the list unchanged, the -1 case). -/
def setUnreadFirst (chatId : String) (unread : Nat) : List Chats → List Chats
  | [] => []
  | c :: cs =>
    if c.chatId = chatId then { c with unread := unread } :: cs
    else c :: setUnreadFirst chatId unread cs

def updateRead (l : List Chats) (chatId : String) (unread : Nat := 0) :
    List Chats :=
  if chatId = "" then l else setUnreadFirst chatId unread l

/-- chat.ts updateWithMsg (lines 330-354).  Pure rendering of the mutation:
`preview` abstracts buildPreview (which delegates to useChatInput), `currentToId`
is state.currentChat?.toId, `now` is Date.now().  Returns the updated chat row
together with the record handed to persist (whose message field is
originalText or plainText or "").

Source:
  if (!message) ( Object.assign(chat, ( message: "", messageTime: now,
    sequence: now, unread: 0 )); persist(...); return; )
  const preview = buildPreview(message);
  const isCurrent = String(chat.toId) === String(state.currentChat?.toId);
  if (!isCurrent && !isNew) ( chat.unread = (chat.unread or 0) + 1;
    chat.message = preview?.html or ""; )
  else ( chat.message = preview?.plainText or ""; )
  chat.messageTime = message.messageTime or now;
  chat.sequence = message.sequence or now;
  persist(( ...chat, message: preview?.originalText or preview?.plainText or "" ));
-/
def updateWithMsg (preview : IMessage → Option PreviewR)
    (currentToId : Option String) (now : Nat) (chat : Chats)
    (message : Option IMessage) (isNew : Bool) : Chats × Chats :=
  match message with
  | none =>
    let chat' : Chats :=
      { chat with message := "", messageTime := now, sequence := now, unread := 0 }
    (chat', { chat' with message := "" })
  | some m =>
    let pv : Option PreviewR := preview m
    let isCurrent : Bool := match currentToId with
      | some t => chat.toId == t
      | none => false
    let chat' :=
      if !isCurrent && !isNew then
        { chat with unread := chat.unread + 1,
                    message := (pv.map (fun p : PreviewR => p.html)).getD "" }
      else
        { chat with message := (pv.map (fun p : PreviewR => p.plainText)).getD "" }
    let chat'' := { chat' with messageTime := orNowNat m.messageTime now,
                               sequence := orNowNat m.sequence now }
    (chat'', { chat'' with
                 message := orElseStr ((pv.map (fun p : PreviewR => p.originalText)).getD "")
                   (orElseStr ((pv.map (fun p : PreviewR => p.plainText)).getD "") "") })

/-! Inbound priority mapping, core.ts MainManager.getMessagePriority
(lines 577-593). -/

/-- The four queue lanes of utils/MessageQueue. -/
inductive Priority where
  | urgent
  | high
  | normal
  | low
  deriving DecidableEq

/-- The socket message-type code table (constants/MessageType).  Only the
names matter to the dispatch logic; the record keeps them abstract. -/
structure MessageTypeCodes where
  REGISTER : Int
  REGISTER_SUCCESS : Int
  REGISTER_FAILED : Int
  HEART_BEAT : Int
  HEART_BEAT_SUCCESS : Int
  HEART_BEAT_FAILED : Int
  FORCE_LOGOUT : Int
  LOGIN_EXPIRED : Int
  REFRESH_TOKEN : Int
  SINGLE_MESSAGE : Int
  GROUP_MESSAGE : Int
  VIDEO_MESSAGE : Int
  GROUP_OPERATION : Int
  MESSAGE_OPERATION : Int

/-- Modelled from the spec: the numeric values of the MessageType constant
table are not under src/ (only constants/MessageContentType.ts is); the spec
lists the recognized codes without numbers, so distinct representative values
are chosen here. -/
def mtCodes : MessageTypeCodes :=
  ⟨1, 2, 3, 4, 5, 6, 7, 8, 9, 10, 11, 12, 13, 14⟩

/-- core.ts getMessagePriority (lines 577-593), verbatim if-chain:
URGENT for FORCE_LOGOUT or LOGIN_EXPIRED, HIGH for VIDEO_MESSAGE, LOW for
HEART_BEAT_SUCCESS or REGISTER_SUCCESS, NORMAL otherwise. -/
def getMessagePriority (mt : MessageTypeCodes) (code : Int) : Priority :=
  if code = mt.FORCE_LOGOUT ∨ code = mt.LOGIN_EXPIRED then .urgent
  else if code = mt.VIDEO_MESSAGE then .high
  else if code = mt.HEART_BEAT_SUCCESS ∨ code = mt.REGISTER_SUCCESS then .low
  else .normal

/-! Group-operation state machine, group.ts applyGroupOperation
(lines 526-628).  The dispatch keys are the numeric operation-type codes of
constants/MessageContentType.ts, which is under src/, so they are concrete. -/

namespace MessageContentType

def TIP : Int := 0
def TEXT : Int := 1
def JOIN_GROUP : Int := 402
def LEAVE_GROUP : Int := 403
def KICK_FROM_GROUP : Int := 404
def PROMOTE_TO_ADMIN : Int := 405
def DEMOTE_FROM_ADMIN : Int := 406
def TRANSFER_GROUP_OWNER : Int := 407
def SET_GROUP_INFO : Int := 408
def SET_GROUP_ANNOUNCEMENT : Int := 409
def SET_GROUP_JOIN_MODE : Int := 410
def MUTE_MEMBER : Int := 415
def UNMUTE_MEMBER : Int := 416
def MUTE_ALL : Int := 417
def UNMUTE_ALL : Int := 418
def SET_MEMBER_ROLE : Int := 419
def REMOVE_GROUP : Int := 420
def RECALL_MESSAGE : Int := 453

end MessageContentType

-- The GroupMemberRole constant table of the constants index
-- (src/unnamed/part_006): OWNER 0, ADMIN 1, MEMBER 2, MUTED 3.
namespace GroupMemberRole

def OWNER : Int := 0
def ADMIN : Int := 1
def MEMBER : Int := 2
def MUTED : Int := 3

end GroupMemberRole

-- The GroupMuteStatus constant table of the constants index
-- (src/unnamed/part_006): MUTED 0, NORMAL 1.
namespace GroupMuteStatus

def MUTED : Int := 0
def NORMAL : Int := 1

end GroupMuteStatus

/-- One entry of the group member map (fields the state machine touches). -/
structure GroupMember where
  role : Int
  mute : Int
  muteEndTime : Option Nat
  deriving DecidableEq

/-- Group info object (fields the state machine touches). -/
structure GroupInfo where
  groupId : String
  groupName : String
  avatar : String
  notification : String
  muteAll : Int
  applyJoinType : Int
  deriving DecidableEq

/-- The group store state: the member map (an association list keyed by
userId, mirroring the JS object keyed by userId), the info object and the
current group id. -/
structure GState where
  members : List (String × GroupMember)
  info : Option GroupInfo
  currentGroupId : Option String
  deriving DecidableEq

/-- GroupOperationMessageBody, restricted to the fields applyGroupOperation
reads.  Absent string fields model as "" (JS falsy); the extra bag's fields
are Options. -/
structure GroupOperationMessageBody where
  groupId : String
  operationType : Int
  operatorId : String
  targetUserId : String
  groupName : String
  groupAvatar : String
  description : String
  extraMuteDuration : Option Int
  extraNewRole : Option Int
  extraAnnouncement : Option String
  extraJoinMode : Option Int
  deriving DecidableEq

/-- state.members[k] lookup. -/
def lookupMember (ms : List (String × GroupMember)) (k : String) :
    Option GroupMember :=
  (ms.find? (fun p => p.1 = k)).map Prod.snd

/-- state.members[k].role = r. -/
def setMemberRole (ms : List (String × GroupMember)) (k : String) (r : Int) :
    List (String × GroupMember) :=
  ms.map (fun p => if p.1 = k then (p.1, { p.2 with role := r }) else p)

/-- state.members[k].mute / muteEndTime assignment. -/
def setMemberMute (ms : List (String × GroupMember)) (k : String) (mu : Int)
    (met : Option Nat) : List (String × GroupMember) :=
  ms.map (fun p => if p.1 = k then (p.1, { p.2 with mute := mu, muteEndTime := met }) else p)

/-- delete state.members[k]. -/
def delMember (ms : List (String × GroupMember)) (k : String) :
    List (String × GroupMember) :=
  ms.filter (fun p => p.1 ≠ k)

/-- True when the info object exists and carries the operation's group id
(the `state.info && state.info.groupId === o.groupId` guard). -/
def infoMatches (st : GState) (gid : String) : Bool :=
  match st.info with
  | some i => i.groupId == gid
  | none => false

/-- group.ts applyGroupOperation (lines 526-628).  `now` is Date.now().
Dispatch is on op.operationType over the fixed handler table; an unrecognized
code is logged and leaves the state unchanged, as does an op without groupId.
The JOIN_GROUP handler fires the async loadMembers(groupId), whose synchronous
prefix records the group id; the awaited member refresh is a collaborator call
outside this model. -/
def applyGroupOperation (now : Nat) (_code : Int)
    (op : GroupOperationMessageBody) (st : GState) : GState :=
  if op.groupId = "" then st
  else if op.operationType = MessageContentType.KICK_FROM_GROUP then
    if op.targetUserId ≠ "" ∧ (lookupMember st.members op.targetUserId).isSome then
      { st with members := delMember st.members op.targetUserId }
    else st
  else if op.operationType = MessageContentType.PROMOTE_TO_ADMIN then
    if op.targetUserId ≠ "" ∧ (lookupMember st.members op.targetUserId).isSome then
      { st with members := setMemberRole st.members op.targetUserId GroupMemberRole.ADMIN }
    else st
  else if op.operationType = MessageContentType.DEMOTE_FROM_ADMIN then
    if op.targetUserId ≠ "" ∧ (lookupMember st.members op.targetUserId).isSome then
      { st with members := setMemberRole st.members op.targetUserId GroupMemberRole.MEMBER }
    else st
  else if op.operationType = MessageContentType.TRANSFER_GROUP_OWNER then
    let ms1 :=
      if op.operatorId ≠ "" ∧ (lookupMember st.members op.operatorId).isSome then
        setMemberRole st.members op.operatorId GroupMemberRole.MEMBER
      else st.members
    let ms2 :=
      if op.targetUserId ≠ "" ∧ (lookupMember ms1 op.targetUserId).isSome then
        setMemberRole ms1 op.targetUserId GroupMemberRole.OWNER
      else ms1
    { st with members := ms2 }
  else if op.operationType = MessageContentType.MUTE_MEMBER then
    if op.targetUserId ≠ "" ∧ (lookupMember st.members op.targetUserId).isSome then
      let dur := op.extraMuteDuration.getD 0
      let met : Option Nat := if dur > 0 then some (now + (dur * 1000).toNat) else none
      { st with members := setMemberMute st.members op.targetUserId GroupMuteStatus.MUTED met }
    else st
  else if op.operationType = MessageContentType.UNMUTE_MEMBER then
    if op.targetUserId ≠ "" ∧ (lookupMember st.members op.targetUserId).isSome then
      { st with members := setMemberMute st.members op.targetUserId GroupMuteStatus.NORMAL none }
    else st
  else if op.operationType = MessageContentType.MUTE_ALL then
    if infoMatches st op.groupId then
      { st with info := st.info.map (fun i => { i with muteAll := GroupMuteStatus.MUTED }) }
    else st
  else if op.operationType = MessageContentType.UNMUTE_ALL then
    if infoMatches st op.groupId then
      { st with info := st.info.map (fun i => { i with muteAll := GroupMuteStatus.NORMAL }) }
    else st
  else if op.operationType = MessageContentType.SET_MEMBER_ROLE then
    let newRole := op.extraNewRole.getD GroupMemberRole.MEMBER
    if op.targetUserId ≠ "" ∧ (lookupMember st.members op.targetUserId).isSome then
      { st with members := setMemberRole st.members op.targetUserId newRole }
    else st
  else if op.operationType = MessageContentType.SET_GROUP_INFO then
    if infoMatches st op.groupId then
      { st with info := st.info.map (fun i =>
          let i1 := if op.groupName ≠ "" then { i with groupName := op.groupName } else i
          if op.groupAvatar ≠ "" then { i1 with avatar := op.groupAvatar } else i1) }
    else st
  else if op.operationType = MessageContentType.SET_GROUP_ANNOUNCEMENT then
    let content := op.extraAnnouncement.getD op.description
    if infoMatches st op.groupId ∧ content ≠ "" then
      { st with info := st.info.map (fun i => { i with notification := content }) }
    else st
  else if op.operationType = MessageContentType.SET_GROUP_JOIN_MODE then
    let mode := op.extraJoinMode.getD ((st.info.map (fun i => i.applyJoinType)).getD 0)
    if infoMatches st op.groupId then
      { st with info := st.info.map (fun i => { i with applyJoinType := mode }) }
    else st
  else if op.operationType = MessageContentType.REMOVE_GROUP then
    if infoMatches st op.groupId then
      { st with members := [], info := none, currentGroupId := none }
    else st
  else if op.operationType = MessageContentType.JOIN_GROUP then
    { st with currentGroupId := some op.groupId }
  else if op.operationType = MessageContentType.LEAVE_GROUP then
    if op.targetUserId ≠ "" ∧ (lookupMember st.members op.targetUserId).isSome then
      { st with members := delMember st.members op.targetUserId }
    else st
  else
    st

/-! Recall handling, chat.ts handleRecall (lines 530-557), with the durable
store and full-text shadow table modelled per mapper (single / group). -/

/-- RecallMessageBody fields handleRecall reads; absent fields are none. -/
structure RecallMessageBody where
  chatType : Option Int
  operatorId : Option String
  recallTime : Option Nat
  reason : Option String
  deriving DecidableEq

/-- The recall directive (IMessageAction): messageId "" models the falsy
guard `if (!data?.messageId) return`. -/
structure IMessageAction where
  messageId : String
  messageBody : RecallMessageBody
  deriving DecidableEq

/-- An entry of the live message list (fields handleRecall touches). -/
structure MsgRec where
  messageId : String
  messageBody : JsVal
  messageContentType : Int
  deriving DecidableEq

instance : Inhabited MsgRec :=
  ⟨⟨"", .null, 0⟩⟩

/-- A durable message row as patched by updateById. -/
structure DbRow where
  messageBody : String
  messageContentType : Int
  deriving DecidableEq

/-- One mapper's tables: message rows keyed by messageId, and the id set of
the full-text shadow table. -/
structure DbTable where
  rows : List (String × DbRow)
  fts : List String
  deriving DecidableEq

/-- The state handleRecall acts on: the live message list plus the single-
and group-message mapper tables. -/
structure ChatMsgState where
  messageList : List MsgRec
  single : DbTable
  group : DbTable
  deriving DecidableEq

/-- The ambient store state getUserNameByType reads: the current chat name
and the group members list (userId, name); it is not written by handleRecall. -/
structure RecallEnv where
  currentName : String
  membersExcludeSelf : List (String × String)
  deriving DecidableEq

/-- chat.ts getUserNameByType (lines 559-567).  For a single chat the source
returns getters.currentName (whose resolved display-name string this models);
for a group chat it returns member?.name or member?.userId for the member
found by id, and undefined (none) otherwise. -/
def getUserNameByType (mt : MessageTypeCodes) (env : RecallEnv) (id : String)
    (type : Int) : Option String :=
  if type = mt.SINGLE_MESSAGE then some env.currentName
  else if type = mt.GROUP_MESSAGE then
    match env.membersExcludeSelf.find? (fun p => p.1 = id) with
    | some m => some (orElseStr m.2 m.1)
    | none => none
  else none

/-- The tombstone object handleRecall builds:
( _recalled: true, operatorId, recallTime, reason, name ). -/
def recallTombstone (mt : MessageTypeCodes) (env : RecallEnv) (now : Nat)
    (mb : RecallMessageBody) : JsVal :=
  let chatType := mb.chatType.getD mt.SINGLE_MESSAGE
  let nameOpt := getUserNameByType mt env (mb.operatorId.getD "") chatType
  .obj (.cons "_recalled" (.bool true)
    (.cons "operatorId" (.str (mb.operatorId.getD ""))
      (.cons "recallTime" (.num (mb.recallTime.getD now))
        (.cons "reason" (.str (mb.reason.getD ""))
          (.cons "name" (match nameOpt with | some s => .str s | none => .undef)
            .nil)))))

/-- The row rewrite of updateById(messageId, patch): a row keyed by the
messageId receives the recall body and content type, any other row is kept. -/
def patchRow (messageId : String) (body : String) (p : String × DbRow) :
    String × DbRow :=
  if p.1 = messageId then
    (p.1, { messageBody := body,
            messageContentType := MessageContentType.RECALL_MESSAGE })
  else p

/-- updateById(messageId, patch) followed by deleteFTSById(messageId) on one
mapper's tables: the matching row (if any) is patched in place — never
deleted — and the FTS shadow row is removed. -/
def patchTable (t : DbTable) (messageId : String) (body : String) : DbTable :=
  { rows := t.rows.map (patchRow messageId body),
    fts := t.fts.filter (fun i => i ≠ messageId) }

/-- findIndex over the live message list plus direct index assignment:
the first entry whose messageId matches gets the new body and content type;
no match (-1) leaves the list unchanged. -/
def replaceFirstMsg (id : String) (body : JsVal) (ct : Int) :
    List MsgRec → List MsgRec
  | [] => []
  | m :: ms =>
    if m.messageId = id then
      { m with messageBody := body, messageContentType := ct } :: ms
    else m :: replaceFirstMsg id body ct ms

/-- chat.ts handleRecall (lines 530-557).  `now` is Date.now().  Replaces the
target message's body with the tombstone and reclassifies its content type to
RECALL_MESSAGE in the live list (when present) and in the durable store of
the mapper chosen by the directive's chatType, and deletes the FTS shadow
row for that id. -/
def handleRecall (mt : MessageTypeCodes) (env : RecallEnv) (now : Nat)
    (data : IMessageAction) (st : ChatMsgState) : ChatMsgState :=
  if data.messageId = "" then st
  else
    let mb := data.messageBody
    let isSingleMapper := (mb.chatType.getD mt.SINGLE_MESSAGE) = mt.SINGLE_MESSAGE
    let recallBody := recallTombstone mt env now mb
    let ml := replaceFirstMsg data.messageId recallBody
      MessageContentType.RECALL_MESSAGE st.messageList
    if isSingleMapper then
      { messageList := ml,
        single := patchTable st.single data.messageId (stringifyJson recallBody),
        group := st.group }
    else
      { messageList := ml,
        single := st.single,
        group := patchTable st.group data.messageId (stringifyJson recallBody) }

/-! Safe-execute error boundary.  A JS computation that either returns a
value or throws is modelled as Except; a JS value that may be undefined as
Option. -/

/-- utils/ErrorHandler.ts ErrorHandler.execute (lines 167-177): awaits the
wrapped computation, returns its result on success, and on a thrown error
hands it to the logging handler and returns undefined — it never re-raises.
The logging side effect has no bearing on the returned value. -/
def ErrorHandler.execute (fn : Except ε α) : Option α :=
  match fn with
  | .ok a => some a
  | .error _ => none

/-- Modelled from the spec: the safeExecute the chat and group stores import
(utils/ExceptionHandler) is not under src/; per the spec it swallows the
error into a logged warning plus an optional fallback value, never letting
the exception propagate, and returns the result unchanged on success. -/
def safeExecute (fn : Except ε α) (fallback : Option α) : Option α :=
  match fn with
  | .ok a => some a
  | .error _ => fallback

/-! Concrete sample inputs used by the closed evidence theorems below.
"u1" plays the local user (ownerId). -/

/-- A concrete preview builder standing in for buildPreview. -/
def pvSample : IMessage → Option PreviewR :=
  fun _ => some ⟨"[new] html", "[new] plain", "[new] original"⟩

/-- A stored chat row with sequence/messageTime 10 and a stored preview. -/
def chatSample : Chats :=
  ⟨"c1", "t1", 0, 0, 10, 10, 0, "old preview"⟩

/-- An inbound message older than chatSample (sequence 5 < 10). -/
def msgStale : IMessage := ⟨"u2", 5, 5, 1⟩

/-- An inbound message authored by the local user "u1". -/
def msgSelf : IMessage := ⟨"u1", 20, 20, 1⟩

/-- A JSON.parse oracle for inputs on which JSON.parse throws. -/
def parsesNone : String → Option JsVal := fun _ => none

/-- A JSON.parse oracle under which every string parses. -/
def parsesAll : String → Option JsVal := fun _ => some .null

/-- A pinned chat with an older messageTime. -/
def chatPinnedOld : Chats := ⟨"cA", "tA", 1, 0, 50, 50, 0, ""⟩

/-- An unpinned chat with a newer messageTime. -/
def chatUnpinnedNew : Chats := ⟨"cB", "tB", 0, 0, 200, 200, 0, ""⟩

/-- Ambient store state for the recall samples. -/
def envSample : RecallEnv := ⟨"Alice", []⟩

/-- A concrete recall directive for message "m1" in a single chat
(chatType 10 = mtCodes.SINGLE_MESSAGE). -/
def recallData : IMessageAction :=
  ⟨"m1", ⟨some 10, some "u2", some 111, some "r"⟩⟩

/-- A message-store state holding "m1" live, in the single-mapper rows and in
its FTS shadow table. -/
def recallState : ChatMsgState :=
  ⟨[⟨"m1", obj1 "text" (.str "hi"), 1⟩],
   ⟨[("m1", ⟨"old", 1⟩)], ["m1"]⟩,
   ⟨[], []⟩⟩

/-- Group member samples: "u1" owner, "u2" plain member. -/
def gmOwner : GroupMember := ⟨GroupMemberRole.OWNER, 0, none⟩

def gmMember : GroupMember := ⟨GroupMemberRole.MEMBER, 0, none⟩

def gstSample : GState := ⟨[("u1", gmOwner), ("u2", gmMember)], none, none⟩

/-- A transfer-owner operation from "u1" to "u2". -/
def opTransfer : GroupOperationMessageBody :=
  ⟨"g1", MessageContentType.TRANSFER_GROUP_OWNER, "u1", "u2", "", "", "",
   none, none, none, none⟩

/-- A kick aimed at "u9", who is not in the member map. -/
def opKickAbsent : GroupOperationMessageBody :=
  ⟨"g1", MessageContentType.KICK_FROM_GROUP, "u1", "u9", "", "", "",
   none, none, none, none⟩

/-- An operation with a type code outside the handler table. -/
def opUnknown : GroupOperationMessageBody :=
  ⟨"g1", 777, "u1", "u2", "", "", "", none, none, none, none⟩

/-! ## Theorems -/

/-- Folding the unread sum from any accumulator equals the accumulator plus
the sum of unread over the unmuted chats. -/
lemma totalUnread_foldl (l : List Chats) : ∀ n : Nat,
    l.foldl (fun s c => if c.isMute = 0 then s + c.unread else s) n
      = n + ((l.filter fun c => c.isMute == 0).map fun c => c.unread).sum := by
  induction l with
  | nil => intro n; simp
  | cons c cs ih =>
    intro n
    by_cases h : c.isMute = 0
    · simp [List.filter_cons, h, ih]
      omega
    · simp [List.filter_cons, h, ih]

/-- C10: the aggregate unread badge getters.totalUnread sums the unread
fields of exactly the chats whose isMute equals 0; a muted chat's unread is
excluded from the total. -/
theorem C10_totalUnread_sums_unmuted_only (l : List Chats) :
    totalUnread l = ((l.filter fun c => c.isMute == 0).map fun c => c.unread).sum := by
  simpa [totalUnread] using totalUnread_foldl l 0

/-- C9: the safe-execute boundary never re-raises: a wrapped computation that
throws yields the fallback (undefined for ErrorHandler.execute, whose context
carries no fallback), and a computation that succeeds has its result returned
unchanged; execute coincides with safeExecute at the absent fallback. -/
theorem C9_safe_execute_error_propagation {E A : Type}
    (fn : Except E A) (fb : Option A) :
    (∀ e, fn = .error e → safeExecute fn fb = fb ∧ ErrorHandler.execute fn = none)
    ∧ (∀ a, fn = .ok a → safeExecute fn fb = some a ∧ ErrorHandler.execute fn = some a)
    ∧ ErrorHandler.execute fn = safeExecute fn (none : Option A) := by
  refine ⟨fun e he => ?_, fun a ha => ?_, ?_⟩
  · subst he; exact ⟨rfl, rfl⟩
  · subst ha; exact ⟨rfl, rfl⟩
  · cases fn <;> rfl

/-- Witness for C9 at concrete computations: a throwing computation returns
the supplied fallback and execute returns undefined; a succeeding one returns
its value. -/
theorem C9_safe_execute_error_propagation_witness :
    (safeExecute (Except.error "boom" : Except String Nat) (some 7) = some 7
      ∧ ErrorHandler.execute (Except.error "boom" : Except String Nat) = none)
    ∧ (safeExecute (Except.ok 3 : Except String Nat) (some 7) = some 3
      ∧ ErrorHandler.execute (Except.ok 3 : Except String Nat) = some 3) :=
  ⟨(C9_safe_execute_error_propagation (Except.error "boom") (some 7)).1 "boom" rfl,
   (C9_safe_execute_error_propagation (Except.ok 3) (some 7)).2.1 3 rfl⟩

/-- C4 counterexample: the claim says REFRESH_TOKEN maps to URGENT, but
getMessagePriority has no REFRESH_TOKEN branch and returns NORMAL for it. -/
theorem C4_counterexample_refresh_token_is_normal :
    getMessagePriority mtCodes mtCodes.REFRESH_TOKEN = Priority.normal
      ∧ Priority.normal ≠ Priority.urgent := by
  constructor
  · decide
  · decide

/-- C4 (amended): for any distinct code assignment, getMessagePriority maps
FORCE_LOGOUT and LOGIN_EXPIRED to URGENT, VIDEO_MESSAGE to HIGH, the
HEART_BEAT_SUCCESS and REGISTER_SUCCESS responses to LOW, and every other
code — including REFRESH_TOKEN, the FAILED heartbeat/register responses and
the chat/group/message-operation codes — to NORMAL. -/
theorem C4_getMessagePriority_mapping (mt : MessageTypeCodes)
    (hv : mt.VIDEO_MESSAGE ∉ ([mt.FORCE_LOGOUT, mt.LOGIN_EXPIRED] : List Int))
    (hhs : mt.HEART_BEAT_SUCCESS ∉
      ([mt.FORCE_LOGOUT, mt.LOGIN_EXPIRED, mt.VIDEO_MESSAGE] : List Int))
    (hrs : mt.REGISTER_SUCCESS ∉
      ([mt.FORCE_LOGOUT, mt.LOGIN_EXPIRED, mt.VIDEO_MESSAGE] : List Int))
    (hrt : mt.REFRESH_TOKEN ∉
      ([mt.FORCE_LOGOUT, mt.LOGIN_EXPIRED, mt.VIDEO_MESSAGE,
        mt.HEART_BEAT_SUCCESS, mt.REGISTER_SUCCESS] : List Int))
    (hhf : mt.HEART_BEAT_FAILED ∉
      ([mt.FORCE_LOGOUT, mt.LOGIN_EXPIRED, mt.VIDEO_MESSAGE,
        mt.HEART_BEAT_SUCCESS, mt.REGISTER_SUCCESS] : List Int))
    (hrf : mt.REGISTER_FAILED ∉
      ([mt.FORCE_LOGOUT, mt.LOGIN_EXPIRED, mt.VIDEO_MESSAGE,
        mt.HEART_BEAT_SUCCESS, mt.REGISTER_SUCCESS] : List Int))
    (hsm : mt.SINGLE_MESSAGE ∉
      ([mt.FORCE_LOGOUT, mt.LOGIN_EXPIRED, mt.VIDEO_MESSAGE,
        mt.HEART_BEAT_SUCCESS, mt.REGISTER_SUCCESS] : List Int))
    (hgm : mt.GROUP_MESSAGE ∉
      ([mt.FORCE_LOGOUT, mt.LOGIN_EXPIRED, mt.VIDEO_MESSAGE,
        mt.HEART_BEAT_SUCCESS, mt.REGISTER_SUCCESS] : List Int))
    (hgo : mt.GROUP_OPERATION ∉
      ([mt.FORCE_LOGOUT, mt.LOGIN_EXPIRED, mt.VIDEO_MESSAGE,
        mt.HEART_BEAT_SUCCESS, mt.REGISTER_SUCCESS] : List Int))
    (hmo : mt.MESSAGE_OPERATION ∉
      ([mt.FORCE_LOGOUT, mt.LOGIN_EXPIRED, mt.VIDEO_MESSAGE,
        mt.HEART_BEAT_SUCCESS, mt.REGISTER_SUCCESS] : List Int)) :
    getMessagePriority mt mt.FORCE_LOGOUT = Priority.urgent
    ∧ getMessagePriority mt mt.LOGIN_EXPIRED = Priority.urgent
    ∧ getMessagePriority mt mt.VIDEO_MESSAGE = Priority.high
    ∧ getMessagePriority mt mt.HEART_BEAT_SUCCESS = Priority.low
    ∧ getMessagePriority mt mt.REGISTER_SUCCESS = Priority.low
    ∧ getMessagePriority mt mt.REFRESH_TOKEN = Priority.normal
    ∧ getMessagePriority mt mt.HEART_BEAT_FAILED = Priority.normal
    ∧ getMessagePriority mt mt.REGISTER_FAILED = Priority.normal
    ∧ getMessagePriority mt mt.SINGLE_MESSAGE = Priority.normal
    ∧ getMessagePriority mt mt.GROUP_MESSAGE = Priority.normal
    ∧ getMessagePriority mt mt.GROUP_OPERATION = Priority.normal
    ∧ getMessagePriority mt mt.MESSAGE_OPERATION = Priority.normal := by
  simp only [List.mem_cons, List.mem_singleton, List.not_mem_nil, not_or,
    or_false] at hv hhs hrs hrt hhf hrf hsm hgm hgo hmo
  refine ⟨?_, ?_, ?_, ?_, ?_, ?_, ?_, ?_, ?_, ?_, ?_, ?_⟩ <;>
    simp [getMessagePriority, hv.1, hv.2, hhs.1, hhs.2.1, hhs.2.2,
      hrs.1, hrs.2.1, hrs.2.2,
      hrt.1, hrt.2.1, hrt.2.2.1, hrt.2.2.2.1, hrt.2.2.2.2,
      hhf.1, hhf.2.1, hhf.2.2.1, hhf.2.2.2.1, hhf.2.2.2.2,
      hrf.1, hrf.2.1, hrf.2.2.1, hrf.2.2.2.1, hrf.2.2.2.2,
      hsm.1, hsm.2.1, hsm.2.2.1, hsm.2.2.2.1, hsm.2.2.2.2,
      hgm.1, hgm.2.1, hgm.2.2.1, hgm.2.2.2.1, hgm.2.2.2.2,
      hgo.1, hgo.2.1, hgo.2.2.1, hgo.2.2.2.1, hgo.2.2.2.2,
      hmo.1, hmo.2.1, hmo.2.2.1, hmo.2.2.2.1, hmo.2.2.2.2]

/-- Witness for C4 at the representative distinct code table. -/
theorem C4_getMessagePriority_mapping_witness :
    getMessagePriority mtCodes mtCodes.FORCE_LOGOUT = Priority.urgent
    ∧ getMessagePriority mtCodes mtCodes.VIDEO_MESSAGE = Priority.high
    ∧ getMessagePriority mtCodes mtCodes.HEART_BEAT_SUCCESS = Priority.low
    ∧ getMessagePriority mtCodes mtCodes.REFRESH_TOKEN = Priority.normal := by
  have h := C4_getMessagePriority_mapping mtCodes (by decide) (by decide)
    (by decide) (by decide) (by decide) (by decide) (by decide) (by decide)
    (by decide) (by decide)
  exact ⟨h.1, h.2.2.1, h.2.2.2.1, h.2.2.2.2.2.1⟩

/-- C3 counterexample: the claim says a non-JSON string fails decoding with a
DecodeError, but parseBody catches the parse failure and returns the normal
text-fallback body ( text: raw ) instead — decoding never fails. -/
theorem C3_counterexample_invalid_json_yields_text_fallback :
    parseBody parsesNone (.str "not json") = obj1 "text" (.str "not json") := rfl

/-- C3 (amended): parseBody is total; for every string raw on which
JSON.parse throws (the oracle returns none on the trimmed input) it returns
the text-fallback body ( text: raw ) — a normal body variant, not an error;
parseBody takes no content type at all. -/
theorem C3_parseBody_nonjson_fallback (parses : String → Option JsVal)
    (s : String) (h : parses s.trim = none) :
    parseBody parses (.str s) = obj1 "text" (.str s) := by
  simp [parseBody, h]

/-- Witness for C3 at the concrete input "not json". -/
theorem C3_parseBody_nonjson_fallback_witness :
    parsesNone ("not json").trim = none
    ∧ parseBody parsesNone (.str "not json") = obj1 "text" (.str "not json") :=
  ⟨rfl, C3_parseBody_nonjson_fallback parsesNone "not json" rfl⟩

/-- C1: evaluating updateWithMsg at the failing input: the stored chat has
sequence 10, messageTime 10 and preview "old preview"; the inbound message
carries the older sequence 5.  The code overwrites all three fields
unconditionally — the stored sequence and messageTime decrease and the
preview is replaced — contradicting the sequence non-regression property. -/
theorem C1_updateWithMsg_regresses_on_stale_sequence :
    msgStale.sequence < chatSample.sequence
    ∧ (updateWithMsg pvSample none 999 chatSample (some msgStale) false).fst.sequence
        = msgStale.sequence
    ∧ (updateWithMsg pvSample none 999 chatSample (some msgStale) false).fst.sequence
        < chatSample.sequence
    ∧ (updateWithMsg pvSample none 999 chatSample (some msgStale) false).fst.messageTime
        < chatSample.messageTime
    ∧ (updateWithMsg pvSample none 999 chatSample (some msgStale) false).fst.message
        ≠ chatSample.message := by
  refine ⟨by decide, by decide, by decide, by decide, by decide⟩

/-- C2 counterexample: msgSelf is authored by the local user "u1" (ownerId),
yet reconciling it into an existing chat that is not the currently open
conversation increments unread — updateWithMsg consults only isCurrent and
isNew, never the author. -/
theorem C2_counterexample_self_message_increments_unread :
    msgSelf.fromId = "u1"
    ∧ (updateWithMsg pvSample (some "other") 999 chatSample (some msgSelf) false).fst.unread
        = chatSample.unread + 1 := by
  refine ⟨rfl, by decide⟩

/-- setUnreadFirst sets the unread of exactly the first chat found by id. -/
lemma find_setUnreadFirst (id : String) (u : Nat) (l : List Chats) :
    ((setUnreadFirst id u l).find? (fun c => c.chatId == id)).map (fun c => c.unread)
      = (l.find? (fun c => c.chatId == id)).map (fun _ => u) := by
  induction l with
  | nil => rfl
  | cons c cs ih =>
    by_cases h : c.chatId = id
    · simp [setUnreadFirst, h]
    · simp [setUnreadFirst, h, ih]

/-- C2 (amended): reconciling an inbound message into an existing chat
(isNew = false) that is not the currently open conversation increments its
unread by exactly 1 regardless of the author — updateWithMsg never consults
fromId; a message for the currently open chat or one merged into a freshly
materialized chat (isNew = true) leaves unread unchanged; and
handleUpdateReadStatus resets the opened chat's unread to 0. -/
theorem C2_unread_rules :
    (∀ (pv : IMessage → Option PreviewR) (cur : Option String) (now : Nat)
        (chat : Chats) (m : IMessage),
      (∀ t, cur = some t → chat.toId ≠ t) →
      (updateWithMsg pv cur now chat (some m) false).fst.unread = chat.unread + 1)
    ∧ (∀ (pv : IMessage → Option PreviewR) (now : Nat) (chat : Chats)
        (m : IMessage) (isNew : Bool),
      (updateWithMsg pv (some chat.toId) now chat (some m) isNew).fst.unread
        = chat.unread)
    ∧ (∀ (pv : IMessage → Option PreviewR) (cur : Option String) (now : Nat)
        (chat : Chats) (m : IMessage),
      (updateWithMsg pv cur now chat (some m) true).fst.unread = chat.unread)
    ∧ (∀ (l : List Chats) (id : String), id ≠ "" →
      ((updateRead l id 0).find? (fun c => c.chatId == id)).map (fun c => c.unread)
        = (l.find? (fun c => c.chatId == id)).map (fun _ => 0)) := by
  refine ⟨?_, ?_, ?_, ?_⟩
  · intro pv cur now chat m h
    cases cur with
    | none => simp [updateWithMsg]
    | some t => simp [updateWithMsg, beq_eq_false_iff_ne.mpr (h t rfl)]
  · intro pv now chat m isNew
    cases isNew <;> simp [updateWithMsg]
  · intro pv cur now chat m
    cases cur <;> simp [updateWithMsg]
  · intro l id h
    simp [updateRead, h, find_setUnreadFirst]

/-- Witness for C2: a stale message into a background chat bumps unread by 1,
and updateRead resets the stored chat's unread to 0. -/
theorem C2_unread_rules_witness :
    (updateWithMsg pvSample none 999 chatSample (some msgStale) false).fst.unread
        = chatSample.unread + 1
    ∧ ((updateRead [chatSample] "c1" 0).find? (fun c => c.chatId == "c1")).map
          (fun c => c.unread)
        = ([chatSample].find? (fun c => c.chatId == "c1")).map (fun _ => 0) :=
  ⟨C2_unread_rules.1 pvSample none 999 chatSample msgStale (fun t h => nomatch h),
   C2_unread_rules.2.2.2 [chatSample] "c1" (by decide)⟩

/-- The serialization of the empty object. -/
lemma stringifyJson_objNil : stringifyJson (.obj .nil) = "\x7b\x7d" := by
  simp [stringifyJson, stringifyObj]

/-- C8: stringifyBody is idempotent under any JSON.parse oracle for which
serialized values parse back (true of real JSON.parse/JSON.stringify): a
string that already parses is returned unchanged, and a structured object
always yields its canonical serialization. -/
theorem C8_stringifyBody_idempotent (parses : String → Option JsVal)
    (h : ∀ v : JsVal, (parses (stringifyJson v)).isSome) :
    (∀ x : JsVal,
      stringifyBody parses (.str (stringifyBody parses x)) = stringifyBody parses x)
    ∧ (∀ s : String, (parses s).isSome → stringifyBody parses (.str s) = s)
    ∧ (∀ o : JsObj, stringifyBody parses (.obj o) = stringifyJson (.obj o)) := by
  have hsome : ∀ t : String, (parses t).isSome →
      stringifyBody parses (.str t) = t := by
    intro t ht
    obtain ⟨v, hv⟩ := Option.isSome_iff_exists.mp ht
    simp [stringifyBody, hv]
  refine ⟨?_, hsome, fun o => rfl⟩
  intro x
  cases x with
  | null =>
    have hp := h (.obj .nil)
    rw [stringifyJson_objNil] at hp
    exact hsome _ hp
  | undef =>
    have hp := h (.obj .nil)
    rw [stringifyJson_objNil] at hp
    exact hsome _ hp
  | str t =>
    by_cases hp : (parses t).isSome
    · have hs := hsome t hp
      rw [hs]
      exact hs
    · have hn : parses t = none := Option.not_isSome_iff_eq_none.mp hp
      have hred : stringifyBody parses (.str t)
          = stringifyJson (obj1 "text" (.str t)) := by
        simp [stringifyBody, hn]
      rw [hred]
      exact hsome _ (h (obj1 "text" (.str t)))
  | bool b => exact hsome _ (h (.bool b))
  | num n => exact hsome _ (h (.num n))
  | arr a => exact hsome _ (h (.arr a))
  | obj o => exact hsome _ (h (.obj o))

/-- Witness for C8 under the everything-parses oracle at concrete inputs. -/
theorem C8_stringifyBody_idempotent_witness :
    stringifyBody parsesAll (.str (stringifyBody parsesAll .null))
        = stringifyBody parsesAll .null
    ∧ stringifyBody parsesAll (.str "abc") = "abc" :=
  ⟨(C8_stringifyBody_idempotent parsesAll (fun _ => rfl)).1 .null,
   (C8_stringifyBody_idempotent parsesAll (fun _ => rfl)).2.1 "abc" rfl⟩

/-- The comparator is antisymmetric under negation: when x does not sort at
or before y, y sorts at or before x. -/
lemma cmpChats_neg (a b : Chats) (h : ¬ cmpChats a b ≤ 0) : cmpChats b a ≤ 0 := by
  unfold cmpChats at *
  split_ifs at * <;> omega

/-- The sort relation induced by the comparator is transitive. -/
lemma cmpChats_trans (a b c : Chats) (h1 : cmpChats a b ≤ 0)
    (h2 : cmpChats b c ≤ 0) : cmpChats a c ≤ 0 := by
  unfold cmpChats at *
  split_ifs at * <;> omega

/-- Chats agreeing on the sort key compare equal. -/
lemma cmpChats_eq_zero_of_key (a b : Chats) (h : chatKey a = chatKey b) :
    cmpChats a b = 0 := by
  rw [chatKey, chatKey, Prod.mk.injEq] at h
  unfold cmpChats
  split_ifs <;> omega

/-- Membership through stable insertion. -/
lemma mem_insChat {z x : Chats} {l : List Chats} (h : z ∈ insChat x l) :
    z = x ∨ z ∈ l := by
  induction l with
  | nil =>
    simp [insChat] at h
    exact Or.inl h
  | cons y ys ih =>
    by_cases hc : cmpChats x y ≤ 0
    · simp only [insChat, if_pos hc, List.mem_cons] at h
      rcases h with h | h | h
      · exact Or.inl h
      · exact Or.inr (by simp [h])
      · exact Or.inr (by simp [h])
    · simp only [insChat, if_neg hc, List.mem_cons] at h
      rcases h with h | h
      · exact Or.inr (by simp [h])
      · rcases ih h with h' | h'
        · exact Or.inl h'
        · exact Or.inr (by simp [h'])

/-- Stable insertion preserves sortedness under the comparator. -/
lemma pairwise_insChat {x : Chats} {l : List Chats}
    (hp : List.Pairwise (fun a b => cmpChats a b ≤ 0) l) :
    List.Pairwise (fun a b => cmpChats a b ≤ 0) (insChat x l) := by
  induction l with
  | nil => simp [insChat]
  | cons y ys ih =>
    rcases List.pairwise_cons.mp hp with ⟨hy, hys⟩
    by_cases hc : cmpChats x y ≤ 0
    · rw [insChat, if_pos hc]
      refine List.pairwise_cons.mpr ⟨?_, hp⟩
      intro z hz
      rcases List.mem_cons.mp hz with rfl | hz'
      · exact hc
      · exact cmpChats_trans x y z hc (hy z hz')
    · rw [insChat, if_neg hc]
      refine List.pairwise_cons.mpr ⟨?_, ih hys⟩
      intro z hz
      rcases mem_insChat hz with rfl | hz'
      · exact cmpChats_neg z y hc
      · exact hy z hz'

/-- Stable insertion and key filtering commute: the inserted element lands in
front of the equal-key elements already present (it was earlier in the input),
and other keys are untouched. -/
lemma filter_insChat (x : Chats) (l : List Chats) (k : Int × Nat) :
    (insChat x l).filter (fun c => chatKey c == k)
      = if chatKey x = k then x :: l.filter (fun c => chatKey c == k)
        else l.filter (fun c => chatKey c == k) := by
  induction l with
  | nil => by_cases h : chatKey x = k <;> simp [insChat, h]
  | cons y ys ih =>
    by_cases hc : cmpChats x y ≤ 0
    · by_cases hx : chatKey x = k <;>
        simp [insChat, if_pos hc, List.filter_cons, hx]
    · by_cases hx : chatKey x = k
      · have hyk : ¬ chatKey y = k := by
          intro hy
          exact hc (le_of_eq (cmpChats_eq_zero_of_key x y (hx.trans hy.symm)))
        simp [insChat, if_neg hc, List.filter_cons, ih, hx, hyk]
      · by_cases hy : chatKey y = k <;>
          simp [insChat, if_neg hc, List.filter_cons, ih, hx, hy]

/-- C7: after every re-sort the chat list is ordered by the comparator —
isTop descending first, messageTime descending second — any two chats tied on
both keys keep their relative order (filtering the sorted list by a sort key
returns exactly the input's equal-key subsequence), and a pinned chat
strictly precedes an unpinned one regardless of messageTime. -/
theorem C7_sortList_sorted_and_stable :
    (∀ l : List Chats, List.Pairwise (fun a b => cmpChats a b ≤ 0) (sortList l))
    ∧ (∀ (l : List Chats) (k : Int × Nat),
        (sortList l).filter (fun c => chatKey c == k)
          = l.filter (fun c => chatKey c == k))
    ∧ (∀ a b : Chats, cmpChats a b ≤ 0 ↔
        (b.isTop < a.isTop ∨ (a.isTop = b.isTop ∧ b.messageTime ≤ a.messageTime)))
    ∧ (∀ a b : Chats, a.isTop = 1 → b.isTop = 0 → cmpChats a b < 0) := by
  refine ⟨?_, ?_, ?_, ?_⟩
  · intro l
    induction l with
    | nil => simp [sortList]
    | cons x xs ih => exact pairwise_insChat ih
  · intro l k
    induction l with
    | nil => rfl
    | cons x xs ih =>
      by_cases hx : chatKey x = k <;>
        simp [sortList, filter_insChat, hx, List.filter_cons, ih]
  · intro a b
    unfold cmpChats
    split_ifs <;> omega
  · intro a b ha hb
    unfold cmpChats
    rw [ha, hb]
    norm_num

/-- Witness for C7: the pinned chat with messageTime 50 sorts strictly before
the unpinned chat with messageTime 200. -/
theorem C7_sortList_sorted_and_stable_witness :
    chatPinnedOld.isTop = 1 ∧ chatUnpinnedNew.isTop = 0
    ∧ cmpChats chatPinnedOld chatUnpinnedNew < 0 :=
  ⟨rfl, rfl,
   C7_sortList_sorted_and_stable.2.2.2 chatPinnedOld chatUnpinnedNew rfl rfl⟩

/-- Replacing the first match twice with the same body and content type is
the same as replacing it once. -/
lemma replaceFirstMsg_idem (id : String) (b : JsVal) (ct : Int)
    (l : List MsgRec) :
    replaceFirstMsg id b ct (replaceFirstMsg id b ct l)
      = replaceFirstMsg id b ct l := by
  induction l with
  | nil => rfl
  | cons m ms ih =>
    by_cases h : m.messageId = id
    · simp [replaceFirstMsg, h]
    · simp [replaceFirstMsg, h, ih]

/-- The first entry found by id after a first-match replacement is the
replaced entry. -/
lemma find_replaceFirstMsg (id : String) (b : JsVal) (ct : Int)
    (l : List MsgRec) :
    (replaceFirstMsg id b ct l).find? (fun m => m.messageId == id)
      = (l.find? (fun m => m.messageId == id)).map
          (fun m => { m with messageBody := b, messageContentType := ct }) := by
  induction l with
  | nil => rfl
  | cons m ms ih =>
    by_cases h : m.messageId = id
    · simp [replaceFirstMsg, h]
    · simp [replaceFirstMsg, h, ih]

/-- patchRow is idempotent. -/
lemma patchRow_idem (id : String) (b : String) (p : String × DbRow) :
    patchRow id b (patchRow id b p) = patchRow id b p := by
  by_cases h : p.1 = id <;> simp [patchRow, h]

/-- patchTable is idempotent. -/
lemma patchTable_idem (t : DbTable) (id : String) (b : String) :
    patchTable (patchTable t id b) id b = patchTable t id b := by
  simp only [patchTable, List.map_map, List.filter_filter, DbTable.mk.injEq]
  constructor
  · exact List.map_congr_left (fun p _ => patchRow_idem id b p)
  · simp

/-- patchTable preserves the key column of the row table. -/
lemma patchTable_keys (t : DbTable) (id : String) (b : String) :
    (patchTable t id b).rows.map Prod.fst = t.rows.map Prod.fst := by
  simp only [patchTable, List.map_map]
  refine List.map_congr_left (fun p _ => ?_)
  by_cases h : p.1 = id <;> simp [patchRow, h, Function.comp]

/-- After patchTable, the id is absent from the FTS shadow table. -/
lemma patchTable_fts (t : DbTable) (id : String) (b : String) :
    id ∉ (patchTable t id b).fts := by
  simp [patchTable, List.mem_filter]

/-- After patchTable, any row keyed by the id carries the patched value. -/
lemma patchTable_row_at (t : DbTable) (id : String) (b : String) :
    ∀ p ∈ (patchTable t id b).rows, p.1 = id →
      p.2 = DbRow.mk b MessageContentType.RECALL_MESSAGE := by
  intro p hp hfst
  simp only [patchTable, List.mem_map] at hp
  obtain ⟨q, hq, rfl⟩ := hp
  by_cases h : q.1 = id
  · simp [patchRow, h]
  · simp only [patchRow, if_neg h] at hfst ⊢
    exact absurd hfst h

/-- C5 counterexample: the tombstone the code writes is not the four-field
shape ( _recalled, operatorId, recallTime, reason ) the claim states — it
carries a fifth field, name (the operator's resolved display name).  At the
concrete directive the live entry for "m1" becomes the five-field object. -/
theorem C5_counterexample_tombstone_has_name_field :
    (handleRecall mtCodes envSample 7 recallData recallState).messageList.find?
        (fun m => m.messageId == "m1")
      = some ⟨"m1",
          .obj (.cons "_recalled" (.bool true)
            (.cons "operatorId" (.str "u2")
              (.cons "recallTime" (.num 111)
                (.cons "reason" (.str "r")
                  (.cons "name" (.str "Alice") .nil))))),
          MessageContentType.RECALL_MESSAGE⟩
    ∧ (JsVal.obj (.cons "_recalled" (.bool true)
          (.cons "operatorId" (.str "u2")
            (.cons "recallTime" (.num 111)
              (.cons "reason" (.str "r")
                (.cons "name" (.str "Alice") .nil)))))
        ≠ JsVal.obj (.cons "_recalled" (.bool true)
            (.cons "operatorId" (.str "u2")
              (.cons "recallTime" (.num 111)
                (.cons "reason" (.str "r") .nil))))) := by
  constructor
  · simp [handleRecall, recallData, recallState, mtCodes, envSample,
      replaceFirstMsg, recallTombstone, getUserNameByType, orElseStr, obj1]
  · simp

/-- C5 (amended): handleRecall is idempotent — applying the same directive
twice yields the state of applying it once; the durable row table keeps
exactly its keys (the row is patched, never deleted); for a non-empty
messageId the first live entry with that id becomes the five-field tombstone
reclassified to RECALL_MESSAGE, and in the mapper the directive's chatType
selects, the FTS shadow row for the id is gone and the stored row carries the
serialized tombstone and the RECALL_MESSAGE content type. -/
theorem C5_handleRecall_idempotent_tombstone
    (mt : MessageTypeCodes) (env : RecallEnv) (now : Nat)
    (data : IMessageAction) (st : ChatMsgState) :
    handleRecall mt env now data (handleRecall mt env now data st)
        = handleRecall mt env now data st
    ∧ (handleRecall mt env now data st).single.rows.map Prod.fst
        = st.single.rows.map Prod.fst
    ∧ (handleRecall mt env now data st).group.rows.map Prod.fst
        = st.group.rows.map Prod.fst
    ∧ (data.messageId ≠ "" →
        ((handleRecall mt env now data st).messageList.find?
            (fun m => m.messageId == data.messageId)
          = (st.messageList.find? (fun m => m.messageId == data.messageId)).map
              (fun m => { m with
                  messageBody := recallTombstone mt env now data.messageBody,
                  messageContentType := MessageContentType.RECALL_MESSAGE }))
        ∧ (data.messageBody.chatType.getD mt.SINGLE_MESSAGE = mt.SINGLE_MESSAGE →
            data.messageId ∉ (handleRecall mt env now data st).single.fts
            ∧ ∀ p ∈ (handleRecall mt env now data st).single.rows,
                p.1 = data.messageId →
                p.2 = DbRow.mk
                  (stringifyJson (recallTombstone mt env now data.messageBody))
                  MessageContentType.RECALL_MESSAGE)
        ∧ (data.messageBody.chatType.getD mt.SINGLE_MESSAGE ≠ mt.SINGLE_MESSAGE →
            data.messageId ∉ (handleRecall mt env now data st).group.fts
            ∧ ∀ p ∈ (handleRecall mt env now data st).group.rows,
                p.1 = data.messageId →
                p.2 = DbRow.mk
                  (stringifyJson (recallTombstone mt env now data.messageBody))
                  MessageContentType.RECALL_MESSAGE)) := by
  by_cases h0 : data.messageId = ""
  · refine ⟨?_, ?_, ?_, ?_⟩ <;> simp [handleRecall, h0]
  · by_cases hS : data.messageBody.chatType.getD mt.SINGLE_MESSAGE
        = mt.SINGLE_MESSAGE
    · refine ⟨?_, ?_, ?_, fun _ => ⟨?_, fun _ => ⟨?_, ?_⟩, fun hS' => ?_⟩⟩
      · simp [handleRecall, h0, hS, replaceFirstMsg_idem, patchTable_idem]
      · simp [handleRecall, h0, hS, patchTable_keys]
      · simp [handleRecall, h0, hS]
      · simp [handleRecall, h0, hS, find_replaceFirstMsg]
      · simpa [handleRecall, h0, hS] using
          patchTable_fts st.single data.messageId
            (stringifyJson (recallTombstone mt env now data.messageBody))
      · simpa [handleRecall, h0, hS] using
          patchTable_row_at st.single data.messageId
            (stringifyJson (recallTombstone mt env now data.messageBody))
      · exact absurd hS hS'
    · refine ⟨?_, ?_, ?_, fun _ => ⟨?_, fun hS' => ?_, fun _ => ⟨?_, ?_⟩⟩⟩
      · simp [handleRecall, h0, hS, replaceFirstMsg_idem, patchTable_idem]
      · simp [handleRecall, h0, hS]
      · simp [handleRecall, h0, hS, patchTable_keys]
      · simp [handleRecall, h0, hS, find_replaceFirstMsg]
      · exact absurd hS' hS
      · simpa [handleRecall, h0, hS] using
          patchTable_fts st.group data.messageId
            (stringifyJson (recallTombstone mt env now data.messageBody))
      · simpa [handleRecall, h0, hS] using
          patchTable_row_at st.group data.messageId
            (stringifyJson (recallTombstone mt env now data.messageBody))

/-- Witness for C5 at the concrete directive and state: applying the recall
twice equals applying it once, and the FTS shadow row for "m1" is gone. -/
theorem C5_handleRecall_idempotent_tombstone_witness :
    handleRecall mtCodes envSample 7 recallData
        (handleRecall mtCodes envSample 7 recallData recallState)
      = handleRecall mtCodes envSample 7 recallData recallState
    ∧ "m1" ∉ (handleRecall mtCodes envSample 7 recallData recallState).single.fts :=
  ⟨(C5_handleRecall_idempotent_tombstone mtCodes envSample 7 recallData
      recallState).1,
   (((C5_handleRecall_idempotent_tombstone mtCodes envSample 7 recallData
      recallState).2.2.2 (by decide)).2.1 (by decide)).1⟩

/-- Unfolding of member lookup on a cons cell. -/
lemma lookupMember_cons (p : String × GroupMember)
    (ps : List (String × GroupMember)) (q : String) :
    lookupMember (p :: ps) q = if p.1 = q then some p.2 else lookupMember ps q := by
  by_cases h : p.1 = q <;> simp [lookupMember, List.find?_cons, h]

/-- Unfolding of setMemberRole on a cons cell. -/
lemma setMemberRole_cons (p : String × GroupMember)
    (ps : List (String × GroupMember)) (k : String) (r : Int) :
    setMemberRole (p :: ps) k r
      = (if p.1 = k then (p.1, { p.2 with role := r }) else p) :: setMemberRole ps k r := by
  by_cases h : p.1 = k <;> simp [setMemberRole, h]

/-- Role assignment commutes with lookup: the looked-up member picks up the
new role exactly when it is the assigned key. -/
lemma lookupMember_setMemberRole (ms : List (String × GroupMember))
    (k : String) (r : Int) (q : String) :
    lookupMember (setMemberRole ms k r) q
      = (lookupMember ms q).map
          (fun m => if q = k then { m with role := r } else m) := by
  induction ms with
  | nil => rfl
  | cons p ps ih =>
    by_cases hq : p.1 = q
    · subst hq
      by_cases hp : p.1 = k <;>
        simp [setMemberRole_cons, lookupMember_cons, hp]
    · by_cases hp : p.1 = k
      · have hkq : ¬ k = q := hp ▸ hq
        simp [setMemberRole_cons, lookupMember_cons, hp, hq, hkq, ih]
      · simp [setMemberRole_cons, lookupMember_cons, hp, hq, ih]

/-- After the transfer-owner double assignment, a member list containing no
entry keyed by the target and whose owners are all keyed by the operator has
no owner-roled entries left. -/
lemma transfer_no_owner (a t : String) (ms : List (String × GroupMember))
    (hNoT : ∀ p ∈ ms, p.1 ≠ t)
    (hU : ∀ p ∈ ms, p.2.role = GroupMemberRole.OWNER → p.1 = a) :
    (setMemberRole (setMemberRole ms a GroupMemberRole.MEMBER) t
        GroupMemberRole.OWNER).filter
      (fun p => p.2.role == GroupMemberRole.OWNER) = [] := by
  simp only [GroupMemberRole.MEMBER, GroupMemberRole.OWNER]
  induction ms with
  | nil => rfl
  | cons p ps ih =>
    have hpt : p.1 ≠ t := hNoT p (by simp)
    have htail := ih (fun q hq => hNoT q (by simp [hq]))
      (fun q hq hr => hU q (by simp [hq]) hr)
    by_cases hpa : p.1 = a
    · have hat : ¬ a = t := hpa ▸ hpt
      simp [setMemberRole_cons, hpa, hat, List.filter_cons, htail]
    · have hrole : p.2.role ≠ (0 : Int) :=
        fun hr => hpa (hU p (by simp) hr)
      simp [setMemberRole_cons, hpa, hpt, List.filter_cons, htail,
        beq_eq_false_iff_ne.mpr hrole]

/-- Transfer-owner leaves exactly one owner-roled entry: the target. -/
lemma transfer_unique_owner (a t : String) (ms : List (String × GroupMember))
    (hU : ∀ p ∈ ms, p.2.role = GroupMemberRole.OWNER → p.1 = a)
    (hNodup : (ms.map Prod.fst).Nodup)
    (hT : (lookupMember ms t).isSome) :
    ((setMemberRole (setMemberRole ms a GroupMemberRole.MEMBER) t
        GroupMemberRole.OWNER).filter
      (fun p => p.2.role == GroupMemberRole.OWNER)).map Prod.fst = [t] := by
  simp only [GroupMemberRole.MEMBER, GroupMemberRole.OWNER]
  induction ms with
  | nil => simp [lookupMember] at hT
  | cons p ps ih =>
    rw [List.map_cons, List.nodup_cons] at hNodup
    obtain ⟨hpmem, hN'⟩ := hNodup
    have hU' : ∀ q ∈ ps, q.2.role = GroupMemberRole.OWNER → q.1 = a :=
      fun q hq hr => hU q (by simp [hq]) hr
    by_cases hpt : p.1 = t
    · have hNoT : ∀ q ∈ ps, q.1 ≠ t := by
        intro q hq hqt
        exact hpmem (hpt ▸ hqt ▸ List.mem_map_of_mem Prod.fst hq)
      have hrest := transfer_no_owner a t ps hNoT hU'
      simp only [GroupMemberRole.MEMBER, GroupMemberRole.OWNER] at hrest
      by_cases hpa : p.1 = a
      · have hat : a = t := hpa.symm.trans hpt
        subst hat
        simp [setMemberRole_cons, hpa, List.filter_cons, hrest]
      · have hta : ¬ t = a := fun h => hpa (hpt.trans h)
        simp [setMemberRole_cons, hpa, hpt, hta, List.filter_cons, hrest]
    · have hT' : (lookupMember ps t).isSome := by
        rw [lookupMember_cons, if_neg hpt] at hT
        exact hT
      have htail := ih hU' hN' hT'
      by_cases hpa : p.1 = a
      · have hat : ¬ a = t := hpa ▸ hpt
        simp [setMemberRole_cons, hpa, hat, List.filter_cons, htail]
      · have hrole : p.2.role ≠ (0 : Int) :=
          fun hr => hpa (hU p (by simp) hr)
        simp [setMemberRole_cons, hpa, hpt, List.filter_cons, htail,
          beq_eq_false_iff_ne.mpr hrole]

/-- C6: the group-operation state machine (a) treats a KICK_FROM_GROUP whose
target is absent from the member map as a no-op, (b) after one
TRANSFER_GROUP_OWNER — the operator being the unique current owner and both
users present — leaves exactly one owner-roled member, the target, with the
previous owner demoted to MEMBER, and (c) leaves all state unchanged on an
operation-type code outside the handler table (it is only logged). -/
theorem C6_group_operation_rules :
    (∀ (now : Nat) (code : Int) (op : GroupOperationMessageBody) (st : GState),
      op.operationType = MessageContentType.KICK_FROM_GROUP →
      lookupMember st.members op.targetUserId = none →
      applyGroupOperation now code op st = st)
    ∧ (∀ (now : Nat) (code : Int) (op : GroupOperationMessageBody) (st : GState)
        (mOp : GroupMember),
      op.operationType = MessageContentType.TRANSFER_GROUP_OWNER →
      op.groupId ≠ "" → op.operatorId ≠ "" → op.targetUserId ≠ "" →
      op.operatorId ≠ op.targetUserId →
      lookupMember st.members op.operatorId = some mOp →
      mOp.role = GroupMemberRole.OWNER →
      (∀ p ∈ st.members, p.2.role = GroupMemberRole.OWNER → p.1 = op.operatorId) →
      (st.members.map Prod.fst).Nodup →
      (lookupMember st.members op.targetUserId).isSome →
      ((((applyGroupOperation now code op st).members.filter
          (fun p => p.2.role == GroupMemberRole.OWNER)).map Prod.fst)
        = [op.targetUserId])
      ∧ ((lookupMember (applyGroupOperation now code op st).members
            op.operatorId).map (fun m => m.role) = some GroupMemberRole.MEMBER))
    ∧ (∀ (now : Nat) (code : Int) (op : GroupOperationMessageBody) (st : GState),
      op.operationType ∉
        ([MessageContentType.JOIN_GROUP, MessageContentType.LEAVE_GROUP,
          MessageContentType.KICK_FROM_GROUP, MessageContentType.PROMOTE_TO_ADMIN,
          MessageContentType.DEMOTE_FROM_ADMIN,
          MessageContentType.TRANSFER_GROUP_OWNER,
          MessageContentType.SET_GROUP_INFO,
          MessageContentType.SET_GROUP_ANNOUNCEMENT,
          MessageContentType.SET_GROUP_JOIN_MODE, MessageContentType.MUTE_MEMBER,
          MessageContentType.UNMUTE_MEMBER, MessageContentType.MUTE_ALL,
          MessageContentType.UNMUTE_ALL, MessageContentType.SET_MEMBER_ROLE,
          MessageContentType.REMOVE_GROUP] : List Int) →
      applyGroupOperation now code op st = st) := by
  refine ⟨?_, ?_, ?_⟩
  · intro now code op st hty hlook
    by_cases hg : op.groupId = ""
    · simp [applyGroupOperation, hg]
    · simp [applyGroupOperation, hg, hty, hlook,
        MessageContentType.KICK_FROM_GROUP]
  · intro now code op st mOp hty hg hOpNe hTgtNe hne hLook hRole hU hNodup hT
    have hT1 : (lookupMember (setMemberRole st.members op.operatorId
        GroupMemberRole.MEMBER) op.targetUserId).isSome := by
      rw [lookupMember_setMemberRole]
      simpa using hT
    have hms : (applyGroupOperation now code op st).members
        = setMemberRole
            (setMemberRole st.members op.operatorId GroupMemberRole.MEMBER)
            op.targetUserId GroupMemberRole.OWNER := by
      simp [applyGroupOperation, hg, hty, hOpNe, hTgtNe, hLook, hT1,
        MessageContentType.KICK_FROM_GROUP, MessageContentType.PROMOTE_TO_ADMIN,
        MessageContentType.DEMOTE_FROM_ADMIN,
        MessageContentType.TRANSFER_GROUP_OWNER]
    rw [hms]
    constructor
    · exact transfer_unique_owner op.operatorId op.targetUserId st.members
        hU hNodup hT
    · rw [lookupMember_setMemberRole, lookupMember_setMemberRole, hLook]
      simp [hne]
  · intro now code op st hmem
    simp only [List.mem_cons, List.not_mem_nil, or_false, not_or] at hmem
    obtain ⟨h1, h2, h3, h4, h5, h6, h7, h8, h9, h10, h11, h12, h13, h14, h15⟩ :=
      hmem
    by_cases hg : op.groupId = ""
    · simp [applyGroupOperation, hg]
    · simp [applyGroupOperation, hg, h1, h2, h3, h4, h5, h6, h7, h8, h9, h10,
        h11, h12, h13, h14, h15]

/-- Witness for C6 at the concrete member map ("u1" the unique owner, "u2" a
member): kicking the absent "u9" is a no-op, transferring ownership to "u2"
leaves "u2" as the only owner, and an unknown code changes nothing. -/
theorem C6_group_operation_rules_witness :
    applyGroupOperation 0 421 opKickAbsent gstSample = gstSample
    ∧ (((applyGroupOperation 0 421 opTransfer gstSample).members.filter
        (fun p => p.2.role == GroupMemberRole.OWNER)).map Prod.fst = ["u2"])
    ∧ applyGroupOperation 0 421 opUnknown gstSample = gstSample :=
  ⟨C6_group_operation_rules.1 0 421 opKickAbsent gstSample rfl (by decide),
   (C6_group_operation_rules.2.1 0 421 opTransfer gstSample gmOwner rfl
     (by decide) (by decide) (by decide) (by decide) (by decide) (by decide)
     (by decide) (by decide) (by decide)).1,
   C6_group_operation_rules.2.2 0 421 opUnknown gstSample (by decide)⟩

end Lucky
